import Mathlib

/-!
Shallow embedding of the `multisig` Anchor program
(`src/programs/multisig/src/lib.rs`) and verification of its
specification claims.

Modelling conventions:
- `Pubkey` (32-byte Solana address) is abstracted to `Nat`: the program
  only compares pubkeys for equality.
- `u64` / `u32` arithmetic is overflow-checked (the Anchor build profile
  enables `overflow-checks`), so an overflowing `+= 1` / underflowing
  `-= 1` aborts the whole instruction; this is modelled by the
  `Err.abort` outcome, distinct from every program error code.
- `std::collections::hash_map::DefaultHasher` (`hash_pubkey`) is a
  standard-library collaborator outside the repository; it is modelled
  as an explicit function argument `hash_pubkey : Pubkey → Nat`, so all
  theorems hold for every choice of fingerprint function.
- Account-creation / closing / rent plumbing (`build_multisig_owner`,
  `Account::close`, bumps, rent, `invoke_signed`) is the external
  Record Store / Delegated Authority Invoker collaborator of the spec
  (§6); only its effect on the program's own state is modelled, and the
  external invocation inside `execute_transaction` is modelled as
  succeeding.
- `require!(cond, Code)` is translated as
  `if cond then <continue> else .error (.program .Code)`.
- Anchor `#[derive(Accounts)]` constraints (`constraint = ...`,
  `has_one = ...`) run before the handler and fail with an Anchor
  account-constraint error, not with a code of the program's
  `ErrorCode` enum; this is `Err.accountConstraint`.
-/

set_option linter.unusedVariables false

/-- Abstract Solana address: the program compares addresses only for
equality. -/
abbrev Pubkey := Nat

/-- The program's `ErrorCode` enum (`#[error]`), in source order. The
code's duplicate-owner error is named `UniqueOwners` (message "Owners
must be unique"); the enum has no staleness-specific member. -/
inductive ErrorCode where
  | InvalidOwner
  | InvalidOwnersLen
  | NotEnoughSigners
  | TransactionAlreadySigned
  | Overflow
  | UnableToDelete
  | AlreadyExecuted
  | InvalidThreshold
  | UniqueOwners
  | AlreadySigned
  deriving DecidableEq, Repr

/-- Outcome of a failed instruction: a program error raised by
`require!`, an Anchor account-constraint violation (raised while
validating the `#[derive(Accounts)]` struct, before the handler runs),
or an arithmetic abort (overflow-checked `u64`/`u32` arithmetic
panicking, which kills the instruction with no error code from the
taxonomy). -/
inductive Err where
  | program : ErrorCode → Err
  | accountConstraint : Err
  | abort : Err
  deriving DecidableEq, Repr

/-- The `Multisig` account (the spec's Group): `threshold` and
`owners_amount` are `u64`, `nonce` is `u8`, `owner_set_seqno` (the
spec's membership epoch) is `u32`. -/
structure Multisig where
  name : String
  threshold : Nat
  nonce : Nat
  owner_set_seqno : Nat
  owners_amount : Nat
  deriving DecidableEq, Repr

/-- One entry of a `Transaction`'s account list. -/
structure TransactionAccount where
  pubkey : Pubkey
  is_signer : Bool
  is_writable : Bool
  deriving DecidableEq, Repr

/-- The `Transaction` account (the spec's Proposal). `signers` holds
`u64` pubkey fingerprints produced by `hash_pubkey`. -/
structure Transaction where
  multisig : Pubkey
  program_id : Pubkey
  name : String
  accounts : List TransactionAccount
  data : List Nat
  did_execute : Bool
  owner_set_seqno : Nat
  signers : List Nat
  deriving DecidableEq, Repr

/-- The `MultisigOwner` account (the spec's Membership record): one per
(group, owner) pair. -/
structure MultisigOwner where
  multisig : Pubkey
  owner : Pubkey
  deriving DecidableEq, Repr

/-- `assert_unique_owners`: for each index `i`, `require!` that
`owners[i]` does not reappear among `owners[i+1..]`, failing with
`UniqueOwners` (the code's duplicate-owner error). -/
def assert_unique_owners : List Pubkey → Except Err Unit
  | [] => .ok ()
  | owner :: rest =>
    if rest.any (fun item => item == owner) then
      .error (.program .UniqueOwners)
    else
      assert_unique_owners rest

namespace multisig

/-- Handler `create_multisig`, restricted to the program state it
builds: checks owner uniqueness, then
`require!(threshold > 0 && threshold <= owners.len(), InvalidThreshold)`,
then `require!(!owners.is_empty(), InvalidOwnersLen)`, in that source
order; on success returns the fresh `Multisig` with
`owner_set_seqno = 0` and `owners_amount = owners.len()`. Creation of
the per-owner `MultisigOwner` records is the external Record Store
collaborator. -/
def create_multisig (owners : List Pubkey) (threshold : Nat) (nonce : Nat)
    (name : String) : Except Err Multisig :=
  match assert_unique_owners owners with
  | .error e => .error e
  | .ok _ =>
    if threshold > 0 ∧ threshold ≤ owners.length then
      if owners.isEmpty = false then
        .ok { name := name, threshold := threshold, nonce := nonce,
              owner_set_seqno := 0, owners_amount := owners.length }
      else .error (.program .InvalidOwnersLen)
    else .error (.program .InvalidThreshold)

/-- Handler `create_transaction`. Arguments mirror the
`CreateTransaction` accounts (the `Multisig` account and its address,
the authenticated `proposer` signer, the supplied `MultisigOwner`
record) and `CreateTransactionArgs`. The only check is
`require!(proposer.key == multisig_owner.owner, InvalidOwner)`; neither
the handler nor the `CreateTransaction` accounts struct compares
`multisig_owner.multisig` with the multisig account's address. On
success it writes the fresh `Transaction` with `did_execute = false`,
the multisig's current `owner_set_seqno`, and
`signers = vec![hash_pubkey(multisig_owner.owner)]`. -/
def create_transaction (hash_pubkey : Pubkey → Nat)
    (multisig_key : Pubkey) (multisig : Multisig)
    (proposer : Pubkey) (multisig_owner : MultisigOwner)
    (pid : Pubkey) (accs : List TransactionAccount) (data : List Nat)
    (name : String) : Except Err Transaction :=
  if proposer = multisig_owner.owner then
    .ok { multisig := multisig_key, program_id := pid, name := name,
          accounts := accs, data := data, did_execute := false,
          owner_set_seqno := multisig.owner_set_seqno,
          signers := [hash_pubkey multisig_owner.owner] }
  else .error (.program .InvalidOwner)

/-- Handler `approve`. `owner` is the authenticated caller signer
(`ctx.accounts.owner`), which the handler never reads. It `require!`s
`multisig_owner.multisig == transaction.multisig` (`InvalidOwner`),
then that `hash_pubkey(multisig_owner.owner)` is not yet among
`transaction.signers` (`AlreadySigned`), then pushes the fingerprint.
An error leaves every account unchanged (Anchor rolls the whole
instruction back). -/
def approve (hash_pubkey : Pubkey → Nat) (transaction : Transaction)
    (multisig_owner : MultisigOwner) (owner : Pubkey) :
    Except Err Transaction :=
  if multisig_owner.multisig = transaction.multisig then
    let owner_hash := hash_pubkey multisig_owner.owner
    if transaction.signers.any (fun signer => owner_hash == signer) then
      .error (.program .AlreadySigned)
    else
      .ok { transaction with
              signers := transaction.signers ++ [owner_hash] }
  else .error (.program .InvalidOwner)

/-- Handler `execute_transaction`:
`require!(!transaction.did_execute, AlreadyExecuted)` first, then
`require!(sig_count >= multisig.threshold, NotEnoughSigners)`; then the
delegated `invoke_signed` (external collaborator, modelled as
succeeding) and finally `did_execute = true`. -/
def execute_transaction (multisig : Multisig) (transaction : Transaction) :
    Except Err Transaction :=
  if transaction.did_execute then
    .error (.program .AlreadyExecuted)
  else if transaction.signers.length ≥ multisig.threshold then
    .ok { transaction with did_execute := true }
  else .error (.program .NotEnoughSigners)

end multisig

/-- One entry of the `update_owners_and_threshold` diff batch
(`ctx.remaining_accounts`): an account that deserializes as an existing
`MultisigOwner` record is closed (owner removed), any other account is
initialized as a new record (owner added). -/
inductive OwnerDiff where
  | remove
  | add
  deriving DecidableEq, Repr

/-- The diff loop of `update_owners_and_threshold` acting on
`multisig.owners_amount`: each removal runs the overflow-checked
`owners_amount -= 1` (aborting on underflow), each addition the
overflow-checked `owners_amount += 1` (aborting past `u64::MAX`).
Closing / creating the `MultisigOwner` records themselves is the
external Record Store collaborator. -/
def apply_owner_diffs : List OwnerDiff → Nat → Except Err Nat
  | [], amount => .ok amount
  | .remove :: rest, amount =>
    if amount = 0 then .error .abort
    else apply_owner_diffs rest (amount - 1)
  | .add :: rest, amount =>
    if amount + 1 < 2 ^ 64 then apply_owner_diffs rest (amount + 1)
    else .error .abort

/-- Number of `remove` entries in a diff batch. -/
def countRemovals : List OwnerDiff → Nat
  | [] => 0
  | .remove :: rest => countRemovals rest + 1
  | .add :: rest => countRemovals rest

/-- Number of `add` entries in a diff batch. -/
def countAdditions : List OwnerDiff → Nat
  | [] => 0
  | .remove :: rest => countAdditions rest
  | .add :: rest => countAdditions rest + 1

/-- The epoch step after the diff loop:
`if !ctx.remaining_accounts.is_empty() { multisig.owner_set_seqno += 1 }`
— the overflow-checked `u32` increment runs exactly once iff the batch
is non-empty. -/
def bump_owner_set_seqno (diffs : List OwnerDiff) (seqno : Nat) :
    Except Err Nat :=
  if diffs.isEmpty then .ok seqno
  else if seqno + 1 < 2 ^ 32 then .ok (seqno + 1)
  else .error .abort

namespace multisig

/-- Handler `update_owners_and_threshold`: checks `args.owners`
uniqueness, applies the diff batch to `owners_amount`, bumps
`owner_set_seqno` once iff the batch is non-empty, then
`require!(threshold > 0, InvalidThreshold)` and
`require!(threshold <= owners_amount, InvalidThreshold)` against the
post-batch count, and stores the new threshold. -/
def update_owners_and_threshold (owners : List Pubkey)
    (diffs : List OwnerDiff) (threshold : Nat) (multisig : Multisig) :
    Except Err Multisig :=
  match assert_unique_owners owners with
  | .error e => .error e
  | .ok _ =>
    match apply_owner_diffs diffs multisig.owners_amount with
    | .error e => .error e
    | .ok amount =>
      match bump_owner_set_seqno diffs multisig.owner_set_seqno with
      | .error e => .error e
      | .ok seqno =>
        if threshold > 0 then
          if threshold ≤ amount then
            .ok { multisig with
                    owners_amount := amount
                    owner_set_seqno := seqno
                    threshold := threshold }
          else .error (.program .InvalidThreshold)
        else .error (.program .InvalidThreshold)

end multisig

/-- Anchor accounts validation for `Approve`:
`constraint = multisig.owner_set_seqno == transaction.owner_set_seqno`
and `has_one = multisig` on the transaction; each failure is an
account-constraint error raised before the handler. -/
def Approve.validate (multisig_key : Pubkey) (multisig : Multisig)
    (transaction : Transaction) : Except Err Unit :=
  if multisig.owner_set_seqno = transaction.owner_set_seqno then
    if transaction.multisig = multisig_key then .ok ()
    else .error .accountConstraint
  else .error .accountConstraint

/-- Anchor accounts validation for `ExecuteTransaction`: same
`owner_set_seqno` constraint and `has_one = multisig` as `Approve`. -/
def ExecuteTransaction.validate (multisig_key : Pubkey)
    (multisig : Multisig) (transaction : Transaction) : Except Err Unit :=
  if multisig.owner_set_seqno = transaction.owner_set_seqno then
    if transaction.multisig = multisig_key then .ok ()
    else .error .accountConstraint
  else .error .accountConstraint

namespace multisig

/-- The full `approve` instruction: `Approve` accounts validation, then
the handler. -/
def approve_instruction (hash_pubkey : Pubkey → Nat)
    (multisig_key : Pubkey) (multisig : Multisig)
    (transaction : Transaction) (multisig_owner : MultisigOwner)
    (owner : Pubkey) : Except Err Transaction :=
  match Approve.validate multisig_key multisig transaction with
  | .error e => .error e
  | .ok _ => approve hash_pubkey transaction multisig_owner owner

/-- The full `execute_transaction` instruction: `ExecuteTransaction`
accounts validation, then the handler. -/
def execute_transaction_instruction (multisig_key : Pubkey)
    (multisig : Multisig) (transaction : Transaction) :
    Except Err Transaction :=
  match ExecuteTransaction.validate multisig_key multisig transaction with
  | .error e => .error e
  | .ok _ => execute_transaction multisig transaction

end multisig

/-! Concrete sample accounts used by witnesses and counterexamples. -/

/-- Identity fingerprint function used in concrete scenarios. -/
def hashId : Pubkey → Nat := fun p => p

/-- A sample group: threshold 1, epoch 0, two members. -/
def msEx : Multisig :=
  { name := "g", threshold := 1, nonce := 0, owner_set_seqno := 0,
    owners_amount := 2 }

/-- `msEx` after one membership-changing batch: epoch 1. -/
def msStaleEx : Multisig := { msEx with owner_set_seqno := 1 }

/-- A sample pending transaction of group address `0`, created at epoch
0, with one approval fingerprint `5`. -/
def txEx : Transaction :=
  { multisig := 0, program_id := 9, name := "t", accounts := [],
    data := [], did_execute := false, owner_set_seqno := 0,
    signers := [5] }

/-- `txEx` after successful execution. -/
def txDoneEx : Transaction := { txEx with did_execute := true }

/-- A sample membership record of group address `0`, owner `7`. -/
def moEx : MultisigOwner := { multisig := 0, owner := 7 }

/-- A membership record of group address `0` for owner `5`, whose
fingerprint `hashId 5 = 5` is already in `txEx.signers`. -/
def moDupEx : MultisigOwner := { multisig := 0, owner := 5 }

/-- A membership record of a *different* group (address `1`) held by
owner `5`. -/
def moForeignEx : MultisigOwner := { multisig := 1, owner := 5 }

/-- `msEx` after the successful batch `[.add]` of
`update_owners_and_threshold [] [.add] 1`: one more member, epoch
bumped to 1. -/
def msBumpedEx : Multisig :=
  { msEx with owners_amount := 3, owner_set_seqno := 1 }

/-! Helper lemmas shared by several claim theorems. -/

/-- `assert_unique_owners` succeeds exactly on duplicate-free lists and
otherwise fails with the `UniqueOwners` error. -/
theorem assert_unique_owners_eq (owners : List Pubkey) :
    assert_unique_owners owners =
      if owners.Nodup then .ok () else .error (.program .UniqueOwners) := by
  induction owners with
  | nil => simp [assert_unique_owners]
  | cons o rest ih =>
    have hmem : (rest.any fun item => item == o) = true ↔ o ∈ rest := by
      simp [List.any_eq_true]
    by_cases h : o ∈ rest
    · simp [assert_unique_owners, hmem.mpr h, List.nodup_cons, h]
    · have hfalse : (rest.any fun item => item == o) = false := by
        cases hb : rest.any fun item => item == o
        · rfl
        · exact absurd (hmem.mp hb) h
      simp [assert_unique_owners, hfalse, ih, List.nodup_cons, h]

/-- A successful `bump_owner_set_seqno` adds one iff the batch is
non-empty. -/
theorem bump_owner_set_seqno_ok (diffs : List OwnerDiff) (s t : Nat)
    (h : bump_owner_set_seqno diffs s = .ok t) :
    t = s + (if diffs.isEmpty then 0 else 1) := by
  unfold bump_owner_set_seqno at h
  by_cases hd : diffs.isEmpty
  · simp [hd] at h ⊢
    omega
  · simp [hd] at h ⊢
    split at h
    · cases h
      omega
    · cases h

/-- Shape of the group state after a successful
`update_owners_and_threshold`: epoch bumped once iff the batch is
non-empty, new threshold stored and validated against the post-batch
membership count, membership count equal to the diff-loop result. -/
theorem update_ok_state (owners : List Pubkey) (diffs : List OwnerDiff)
    (threshold : Nat) (ms ms2 : Multisig)
    (h : multisig.update_owners_and_threshold owners diffs threshold ms =
      .ok ms2) :
    ms2.owner_set_seqno =
      ms.owner_set_seqno + (if diffs.isEmpty then 0 else 1) ∧
    ms2.threshold = threshold ∧ 0 < threshold ∧
    threshold ≤ ms2.owners_amount ∧
    apply_owner_diffs diffs ms.owners_amount = .ok ms2.owners_amount := by
  unfold multisig.update_owners_and_threshold at h
  cases hA : assert_unique_owners owners with
  | error e => rw [hA] at h; simp at h
  | ok u =>
    rw [hA] at h
    cases hD : apply_owner_diffs diffs ms.owners_amount with
    | error e => rw [hD] at h; simp at h
    | ok amount =>
      rw [hD] at h
      cases hB : bump_owner_set_seqno diffs ms.owner_set_seqno with
      | error e => rw [hB] at h; simp at h
      | ok seqno =>
        rw [hB] at h
        dsimp only at h
        by_cases h1 : threshold > 0
        · rw [if_pos h1] at h
          by_cases h2 : threshold ≤ amount
          · rw [if_pos h2] at h
            injection h with h
            subst h
            refine ⟨?_, rfl, h1, h2, rfl⟩
            exact bump_owner_set_seqno_ok diffs _ _ hB
          · rw [if_neg h2] at h; simp at h
        · rw [if_neg h1] at h; simp at h

/-- `approve` with a fingerprint already present fails with
`AlreadySigned`. -/
theorem approve_already_present (hash_pubkey : Pubkey → Nat)
    (tx : Transaction) (mo : MultisigOwner) (caller : Pubkey)
    (hg : mo.multisig = tx.multisig)
    (hmem : hash_pubkey mo.owner ∈ tx.signers) :
    multisig.approve hash_pubkey tx mo caller =
      .error (.program .AlreadySigned) := by
  unfold multisig.approve
  rw [if_pos hg]
  have hany : (tx.signers.any fun signer =>
      hash_pubkey mo.owner == signer) = true := by
    simp [List.any_eq_true]
    exact hmem
  simp only [hany, if_true]

/-- `approve` with a fresh fingerprint appends exactly that
fingerprint. -/
theorem approve_fresh (hash_pubkey : Pubkey → Nat)
    (tx : Transaction) (mo : MultisigOwner) (caller : Pubkey)
    (hg : mo.multisig = tx.multisig)
    (hmem : hash_pubkey mo.owner ∉ tx.signers) :
    multisig.approve hash_pubkey tx mo caller =
      .ok { tx with signers := tx.signers ++ [hash_pubkey mo.owner] } := by
  unfold multisig.approve
  rw [if_pos hg]
  have hany : (tx.signers.any fun signer =>
      hash_pubkey mo.owner == signer) = false := by
    cases hb : tx.signers.any fun signer => hash_pubkey mo.owner == signer
    · rfl
    · exact absurd (by simpa [List.any_eq_true] using hb) hmem
  simp only [hany, Bool.false_eq_true, if_false]

/-! Claim theorems. -/

/-- C1: for every multisig group and transaction, the
`execute_transaction` handler succeeds if and only if the transaction's
signer count is at least the group's threshold and `did_execute` is
false; on success it sets `did_execute`, so a second execution attempt
on the result fails with `AlreadyExecuted`, and whenever `did_execute`
is already set the handler fails with `AlreadyExecuted` (that check
runs before the signer-count check). -/
theorem C1_execute_transaction_correct (ms : Multisig) (tx : Transaction) :
    ((∃ tx2, multisig.execute_transaction ms tx = .ok tx2) ↔
      (tx.did_execute = false ∧ ms.threshold ≤ tx.signers.length)) ∧
    (∀ tx2, multisig.execute_transaction ms tx = .ok tx2 →
      tx2.did_execute = true ∧
      multisig.execute_transaction ms tx2 =
        .error (.program .AlreadyExecuted)) ∧
    (tx.did_execute = true →
      multisig.execute_transaction ms tx =
        .error (.program .AlreadyExecuted)) := by
  refine ⟨?_, ?_, ?_⟩
  · by_cases h1 : tx.did_execute <;>
      by_cases h2 : tx.signers.length ≥ ms.threshold <;>
        simp [multisig.execute_transaction, h1, h2, ge_iff_le]
  · intro tx2 h
    unfold multisig.execute_transaction at h
    by_cases h1 : tx.did_execute
    · rw [if_pos h1] at h; simp at h
    · rw [if_neg h1] at h
      by_cases h2 : tx.signers.length ≥ ms.threshold
      · rw [if_pos h2] at h
        injection h with h
        subst h
        exact ⟨rfl, by simp [multisig.execute_transaction]⟩
      · rw [if_neg h2] at h; simp at h
  · intro h
    simp [multisig.execute_transaction, h]

/-- C1 witness: a concrete one-signer, threshold-1 execution succeeds,
marks the transaction executed, and a re-execution fails with
`AlreadyExecuted`. -/
theorem C1_witness :
    txDoneEx.did_execute = true ∧
    multisig.execute_transaction msEx txDoneEx =
      .error (.program .AlreadyExecuted) :=
  (C1_execute_transaction_correct msEx txEx).2.1 txDoneEx rfl

/-- C2 (amended): while the group's epoch still equals a transaction's
`owner_set_seqno` snapshot (and the transaction belongs to the group),
the full `approve` / `execute_transaction` instructions behave exactly
as their handlers; after any successful membership-changing
(non-empty) `update_owners_and_threshold` batch, every subsequent
`approve` or `execute_transaction` on that transaction fails — but with
Anchor's account-constraint violation (the
`multisig.owner_set_seqno == transaction.owner_set_seqno` constraint),
not with a dedicated `StaleMembershipEpoch` error code, which the
program does not define. -/
theorem C2_stale_epoch_rejected (hash_pubkey : Pubkey → Nat)
    (multisig_key : Pubkey) (owners : List Pubkey) (diffs : List OwnerDiff)
    (th : Nat) (ms ms2 : Multisig) (tx : Transaction) (mo : MultisigOwner)
    (caller : Pubkey) :
    (tx.owner_set_seqno = ms.owner_set_seqno → tx.multisig = multisig_key →
      multisig.approve_instruction hash_pubkey multisig_key ms tx mo caller =
        multisig.approve hash_pubkey tx mo caller ∧
      multisig.execute_transaction_instruction multisig_key ms tx =
        multisig.execute_transaction ms tx) ∧
    (multisig.update_owners_and_threshold owners diffs th ms = .ok ms2 →
      diffs ≠ [] → tx.owner_set_seqno = ms.owner_set_seqno →
      multisig.approve_instruction hash_pubkey multisig_key ms2 tx mo caller =
        .error .accountConstraint ∧
      multisig.execute_transaction_instruction multisig_key ms2 tx =
        .error .accountConstraint) := by
  constructor
  · intro h1 h2
    constructor
    · unfold multisig.approve_instruction Approve.validate
      rw [if_pos h1.symm, if_pos h2]
    · unfold multisig.execute_transaction_instruction
        ExecuteTransaction.validate
      rw [if_pos h1.symm, if_pos h2]
  · intro hup hne h1
    have hs := (update_ok_state owners diffs th ms ms2 hup).1
    have hne2 : diffs.isEmpty = false := by
      cases diffs
      · exact absurd rfl hne
      · rfl
    rw [hne2] at hs
    simp at hs
    have hneq : ¬(ms2.owner_set_seqno = tx.owner_set_seqno) := by
      rw [h1]
      omega
    constructor
    · unfold multisig.approve_instruction Approve.validate
      rw [if_neg hneq]
    · unfold multisig.execute_transaction_instruction
        ExecuteTransaction.validate
      rw [if_neg hneq]

/-- C2 counterexample: on a concrete stale transaction (snapshot epoch
0, group epoch 1) both `approve` and `execute_transaction` fail with
the generic Anchor account-constraint error — the program's `ErrorCode`
enum contains no `StaleMembershipEpoch` member for them to fail with. -/
theorem C2_counterexample :
    multisig.approve_instruction hashId 0 msStaleEx txEx moEx 7 =
      .error .accountConstraint ∧
    multisig.execute_transaction_instruction 0 msStaleEx txEx =
      .error .accountConstraint := ⟨rfl, rfl⟩

/-- C2 witness: a concrete non-empty batch bumps the epoch, after which
the amended theorem yields the account-constraint failures. -/
theorem C2_witness :
    multisig.approve_instruction hashId 0 msBumpedEx txEx moEx 7 =
      .error .accountConstraint ∧
    multisig.execute_transaction_instruction 0 msBumpedEx txEx =
      .error .accountConstraint :=
  (C2_stale_epoch_rejected hashId 0 [] [.add] 1 msEx msBumpedEx txEx moEx
    7).2 rfl (by decide) rfl

/-- C3 (code evaluated at the failing input): `create_transaction`
accepts a membership record of a *different* group. `moForeignEx`
belongs to group `1`, yet proposing in group `0` with it succeeds and
even auto-approves with the foreign record's owner fingerprint —
nothing in the handler or the `CreateTransaction` accounts struct
compares `multisig_owner.multisig` with the referenced multisig, so
the claimed `InvalidOwner` failure does not occur. -/
theorem C3_group_binding_not_checked :
    moForeignEx.multisig ≠ (0 : Pubkey) ∧
    multisig.create_transaction hashId 0 msEx 5 moForeignEx 9 [] [] "t" =
      .ok txEx :=
  ⟨by decide, rfl⟩

/-- C4: the `approve` instruction never reads the authenticated caller
signer — its result and state change are identical for any two caller
identities, and any caller can append any member's fingerprint given
that member's membership record. -/
theorem C4_approve_caller_independent (hash_pubkey : Pubkey → Nat)
    (multisig_key : Pubkey) (ms : Multisig) (tx : Transaction)
    (mo : MultisigOwner) (caller1 caller2 : Pubkey) :
    multisig.approve_instruction hash_pubkey multisig_key ms tx mo caller1 =
      multisig.approve_instruction hash_pubkey multisig_key ms tx mo
        caller2 ∧
    (mo.multisig = tx.multisig → hash_pubkey mo.owner ∉ tx.signers →
      multisig.approve hash_pubkey tx mo caller1 =
        .ok { tx with signers := tx.signers ++ [hash_pubkey mo.owner] }) :=
  ⟨rfl, fun hg hmem => approve_fresh hash_pubkey tx mo caller1 hg hmem⟩

/-- C4 witness: caller `3`, who is not the record's owner `7`, appends
owner `7`'s fingerprint. -/
theorem C4_witness :
    multisig.approve hashId txEx moEx 3 =
      .ok { txEx with signers := txEx.signers ++ [hashId moEx.owner] } :=
  (C4_approve_caller_independent hashId 0 msEx txEx moEx 3 4).2 rfl
    (by decide)

/-- C5: after every successful `create_multisig` and
`update_owners_and_threshold` the invariant
`1 ≤ threshold ≤ owners_amount` holds, and
`update_owners_and_threshold` validates the new threshold against the
post-batch membership count, failing with `InvalidThreshold` when it is
zero or exceeds that count. -/
theorem C5_threshold_invariant (owners : List Pubkey)
    (threshold nonce : Nat) (name : String) (diffs : List OwnerDiff)
    (ms msC msU : Multisig) (amount : Nat) :
    (multisig.create_multisig owners threshold nonce name = .ok msC →
      1 ≤ msC.threshold ∧ msC.threshold ≤ msC.owners_amount) ∧
    (multisig.update_owners_and_threshold owners diffs threshold ms =
        .ok msU →
      1 ≤ msU.threshold ∧ msU.threshold ≤ msU.owners_amount) ∧
    (assert_unique_owners owners = .ok () →
      apply_owner_diffs diffs ms.owners_amount = .ok amount →
      ms.owner_set_seqno + 1 < 2 ^ 32 →
      threshold = 0 ∨ amount < threshold →
      multisig.update_owners_and_threshold owners diffs threshold ms =
        .error (.program .InvalidThreshold)) := by
  refine ⟨?_, ?_, ?_⟩
  · intro h
    unfold multisig.create_multisig at h
    cases hA : assert_unique_owners owners with
    | error e => rw [hA] at h; simp at h
    | ok u =>
      rw [hA] at h
      dsimp only at h
      by_cases h1 : threshold > 0 ∧ threshold ≤ owners.length
      · rw [if_pos h1] at h
        by_cases h2 : owners.isEmpty = false
        · rw [if_pos h2] at h
          injection h with h
          subst h
          exact ⟨h1.1, h1.2⟩
        · rw [if_neg h2] at h; simp at h
      · rw [if_neg h1] at h; simp at h
  · intro h
    have hu := update_ok_state owners diffs threshold ms msU h
    refine ⟨?_, ?_⟩ <;> rw [hu.2.1]
    · exact hu.2.2.1
    · exact hu.2.2.2.1
  · intro hA hD hseq hbad
    unfold multisig.update_owners_and_threshold
    rw [hA]
    dsimp only
    rw [hD]
    dsimp only
    obtain ⟨s, hb⟩ : ∃ s,
        bump_owner_set_seqno diffs ms.owner_set_seqno = .ok s := by
      unfold bump_owner_set_seqno
      by_cases hd : diffs.isEmpty
      · rw [if_pos hd]; exact ⟨_, rfl⟩
      · rw [if_neg hd, if_pos hseq]; exact ⟨_, rfl⟩
    rw [hb]
    dsimp only
    rcases hbad with h0 | hlt
    · rw [if_neg (by omega)]
    · by_cases h1 : threshold > 0
      · rw [if_pos h1, if_neg (by omega)]
      · rw [if_neg h1]

/-- C5 witness: the invariant on a freshly created concrete group, and
a concrete `update_owners_and_threshold` whose new threshold 3 exceeds
the post-batch count 1 and fails with `InvalidThreshold`. -/
theorem C5_witness :
    (1 ≤ msEx.threshold ∧ msEx.threshold ≤ msEx.owners_amount) ∧
    multisig.update_owners_and_threshold [] [.remove] 3 msEx =
      .error (.program .InvalidThreshold) :=
  ⟨(C5_threshold_invariant [1, 2] 1 0 "g" [] msEx msEx msEx 2).1 rfl,
   (C5_threshold_invariant [] 3 0 "g" [.remove] msEx msEx msEx 1).2.2 rfl
     rfl (by norm_num [msEx]) (Or.inr (by norm_num))⟩

/-- C6: `approve` with a fingerprint already in the signer set fails
with `AlreadySigned` (the instruction aborts, leaving the signer set
unchanged), and otherwise appends exactly that one fingerprint. -/
theorem C6_approve_duplicate (hash_pubkey : Pubkey → Nat)
    (tx : Transaction) (mo : MultisigOwner) (caller : Pubkey)
    (hg : mo.multisig = tx.multisig) :
    (hash_pubkey mo.owner ∈ tx.signers →
      multisig.approve hash_pubkey tx mo caller =
        .error (.program .AlreadySigned)) ∧
    (hash_pubkey mo.owner ∉ tx.signers →
      multisig.approve hash_pubkey tx mo caller =
        .ok { tx with signers := tx.signers ++ [hash_pubkey mo.owner] }) :=
  ⟨fun hmem => approve_already_present hash_pubkey tx mo caller hg hmem,
   fun hmem => approve_fresh hash_pubkey tx mo caller hg hmem⟩

/-- C6 witness: owner `5`'s fingerprint is already in `txEx.signers`,
so a second approval fails with `AlreadySigned`. -/
theorem C6_witness :
    multisig.approve hashId txEx moDupEx 3 =
      .error (.program .AlreadySigned) :=
  (C6_approve_duplicate hashId txEx moDupEx 3 rfl).1 (by decide)

/-- C7: a successful `update_owners_and_threshold` increments the
group's `owner_set_seqno` exactly once when the diff batch is non-empty
— regardless of how many owners the batch adds or removes — and leaves
it unchanged when the batch is empty. -/
theorem C7_epoch_bumped_once_per_batch (owners : List Pubkey)
    (diffs : List OwnerDiff) (threshold : Nat) (ms ms2 : Multisig)
    (h : multisig.update_owners_and_threshold owners diffs threshold ms =
      .ok ms2) :
    ms2.owner_set_seqno =
      ms.owner_set_seqno + (if diffs.isEmpty then 0 else 1) :=
  (update_ok_state owners diffs threshold ms ms2 h).1

/-- C7 witness: a concrete one-addition batch bumps the epoch from 0 to
1. -/
theorem C7_witness :
    msBumpedEx.owner_set_seqno =
      msEx.owner_set_seqno +
        (if ([OwnerDiff.add]).isEmpty then 0 else 1) :=
  C7_epoch_bumped_once_per_batch [] [.add] 1 msEx msBumpedEx rfl

/-- C8 counterexample: creating a group with an empty owners list and
threshold 1 fails with `InvalidThreshold`, not with the claimed
`InvalidOwnersLen`. -/
theorem C8_counterexample :
    multisig.create_multisig [] 1 0 "g" =
      .error (.program .InvalidThreshold) ∧
    multisig.create_multisig [] 1 0 "g" ≠
      .error (.program .InvalidOwnersLen) := by
  refine ⟨rfl, ?_⟩
  intro h
  rw [show multisig.create_multisig [] 1 0 "g" =
        .error (.program .InvalidThreshold) from rfl] at h
  injection h with h2
  injection h2 with h3
  exact ErrorCode.noConfusion h3

/-- C8 (amended): creating a group with an empty owners list fails for
every threshold, nonce and name — but with `InvalidThreshold`, because
the `threshold <= owners.len()` check precedes the emptiness check and
no threshold satisfies `0 < threshold ≤ 0`; the `InvalidOwnersLen`
branch is unreachable. -/
theorem C8_empty_owners_invalid_threshold (threshold nonce : Nat)
    (name : String) :
    multisig.create_multisig [] threshold nonce name =
      .error (.program .InvalidThreshold) := by
  unfold multisig.create_multisig
  rw [show assert_unique_owners [] = .ok () from rfl]
  dsimp only
  rw [if_neg ?_]
  intro hc
  have h0 : threshold ≤ 0 := hc.2
  omega

/-- C9: creating a group whose owners list contains a repeated identity
fails, for every such list and every threshold, with the program's
duplicate-owner error `UniqueOwners` (the error the spec taxonomy calls
`DuplicateOwner`). -/
theorem C9_duplicate_owner_rejected (owners : List Pubkey)
    (threshold nonce : Nat) (name : String) (hdup : ¬owners.Nodup) :
    multisig.create_multisig owners threshold nonce name =
      .error (.program .UniqueOwners) := by
  unfold multisig.create_multisig
  rw [assert_unique_owners_eq, if_neg hdup]

/-- C9 witness: the duplicate list `[1, 1]` is rejected with the
duplicate-owner error. -/
theorem C9_witness :
    multisig.create_multisig [1, 1] 2 0 "g" =
      .error (.program .UniqueOwners) :=
  C9_duplicate_owner_rejected [1, 1] 2 0 "g" (by decide)

/-- C10: the per-removal `owners_amount -= 1` in the diff loop is an
unguarded checked `u64` subtraction: whenever the number of removals in
the batch does not exceed the current membership count (and the
additions stay within `u64`), the loop is total, and on a removal from
a zero count it aborts — an outcome distinct from every error code of
the program's taxonomy. -/
theorem C10_unguarded_owner_decrement :
    (∀ (diffs : List OwnerDiff) (amount : Nat),
        countRemovals diffs ≤ amount →
        amount + countAdditions diffs < 2 ^ 64 →
        ∃ m, apply_owner_diffs diffs amount = .ok m) ∧
    (apply_owner_diffs [.remove] 0 = .error .abort ∧
      ∀ e : ErrorCode,
        apply_owner_diffs [.remove] 0 ≠ .error (.program e)) := by
  refine ⟨?_, rfl, ?_⟩
  · intro diffs
    induction diffs with
    | nil => intro amount h1 h2; exact ⟨amount, rfl⟩
    | cons d rest ih =>
      intro amount h1 h2
      cases d with
      | remove =>
        have hr : countRemovals rest + 1 ≤ amount := by
          simpa [countRemovals] using h1
        have h2r : amount + countAdditions rest < 2 ^ 64 := by
          simpa [countAdditions] using h2
        rw [show apply_owner_diffs (OwnerDiff.remove :: rest) amount =
              if amount = 0 then .error .abort
              else apply_owner_diffs rest (amount - 1) from rfl,
            if_neg (by omega)]
        exact ih (amount - 1) (by omega) (by omega)
      | add =>
        have h2a : amount + (countAdditions rest + 1) < 2 ^ 64 := by
          simpa [countAdditions] using h2
        have h1a : countRemovals rest ≤ amount := by
          simpa [countRemovals] using h1
        rw [show apply_owner_diffs (OwnerDiff.add :: rest) amount =
              if amount + 1 < 2 ^ 64 then
                apply_owner_diffs rest (amount + 1)
              else .error .abort from rfl,
            if_pos (by omega)]
        exact ih (amount + 1) (by omega) (by omega)
  · intro e h
    rw [show apply_owner_diffs [OwnerDiff.remove] 0 =
          Except.error Err.abort from rfl] at h
    injection h with h2
    exact Err.noConfusion h2

/-- C10 witness: a batch with one removal and one addition on a
one-member group is total. -/
theorem C10_witness :
    ∃ m, apply_owner_diffs [OwnerDiff.remove, OwnerDiff.add] 1 = .ok m :=
  C10_unguarded_owner_decrement.1 [OwnerDiff.remove, OwnerDiff.add] 1
    (by decide) (by decide)
